import Mathlib

/-!
Shallow embedding of `src/app.py` (AWS-Bedrock-Serverless-Gallery).

The program is a single function `analyze_image(image_path)`:
* if `image_path is None`, it returns a fixed "please upload" message;
* otherwise it generates a fresh key `f"{uuid.uuid4()}.jpg"`, uploads the
  file to S3 under that key, and polls DynamoDB (`table.get_item` with key
  `image_id = file_name`) up to `max_retries = 30` times, sleeping 2 s
  after every miss; any exception raised in this block is caught and
  rendered as `"An error occurred: " ++ str(e)`.

The external world (the UUID draw, the outcome of the S3 upload, and the
outcome of each DynamoDB lookup) is modelled as an explicit environment,
and the function is instrumented with an event trace recording the upload,
each lookup (with the key used) and each sleep, so that claims about the
number of lookups, the keys used and the sleeps are statable.
-/

/-- A DynamoDB item: a dictionary of string-valued fields. -/
abbrev Item := List (String × String)

/-- Python `d.get(k, default)` on a dictionary. -/
def dictGet (d : Item) (k : String) (default : String) : String :=
  match d.find? (fun q => q.1 == k) with
  | some q => q.2
  | none => default

/-- The value of field `k` of a dictionary, if present (`d[k]`). -/
def fieldVal (d : Item) (k : String) : Option String :=
  (d.find? (fun q => q.1 == k)).map (fun q => q.2)

/-- Outcome of one `table.get_item` call: either an exception is raised
(message `msg`), or a response dictionary is returned that contains an
`'Item'` entry (`resp (some item)`) or does not (`resp none`). -/
inductive LookupOutcome where
  | raise (msg : String)
  | resp (item : Option Item)
deriving DecidableEq

/-- The external world seen by one invocation of `analyze_image`:
the string drawn by `uuid.uuid4()`, whether `s3.upload_file` raises
(and with which message), and the outcome of the `i`-th `get_item` call. -/
structure Env where
  uuid : String
  uploadErr : Option String
  lookup : Nat → LookupOutcome

/-- Observable side effects on the two external stores, plus sleeps. -/
inductive Event where
  | upload (key : String)
  | lookup (key : String)
  | sleep (secs : Nat)
deriving DecidableEq

/-- `max_retries = 30` in `src/app.py`. -/
def maxRetries : Nat := 30

/-- The polling loop of `analyze_image` (`for i in range(max_retries)`),
with `i` the current loop index and `rem` the remaining iterations.
Returns `Except.error msg` when a lookup raises (the exception propagates
to the caller's handler), `Except.ok` otherwise, together with the trace
of lookups and sleeps performed. -/
def pollFrom (env : Env) (file_name : String) : Nat → Nat → Except String String × List Event
  | _, 0 => (Except.ok "Timeout: AI did not respond or Lambda encountered an error.", [])
  | i, rem + 1 =>
    match env.lookup i with
    | LookupOutcome.raise msg => (Except.error msg, [Event.lookup file_name])
    | LookupOutcome.resp (some item) =>
      (Except.ok (dictGet item "description" "No description"), [Event.lookup file_name])
    | LookupOutcome.resp none =>
      let p := pollFrom env file_name (i + 1) rem
      (p.1, Event.lookup file_name :: Event.sleep 2 :: p.2)

/-- `analyze_image` from `src/app.py`, returning the string shown to the
user together with the trace of external side effects. -/
def analyze_image (env : Env) (image_path : Option String) : String × List Event :=
  match image_path with
  | none => ("Please upload an image.", [])
  | some _ =>
    let file_name := env.uuid ++ ".jpg"
    match env.uploadErr with
    | some msg => ("An error occurred: " ++ msg, [Event.upload file_name])
    | none =>
      let p := pollFrom env file_name 0 maxRetries
      match p.1 with
      | Except.ok s => (s, Event.upload file_name :: p.2)
      | Except.error msg => ("An error occurred: " ++ msg, Event.upload file_name :: p.2)

/-- Is this event a record-store lookup? -/
def isLookup : Event → Bool
  | Event.lookup _ => true
  | _ => false

/-- Number of record-store lookups in a trace. -/
def lookupCount (tr : List Event) : Nat := (tr.filter isLookup).length

/-- Is this event a sleep? -/
def isSleep : Event → Bool
  | Event.sleep _ => true
  | _ => false

/-- Number of sleeps in a trace. -/
def sleepCount (tr : List Event) : Nat := (tr.filter isSleep).length

/-- Duration of an event: a sleep lasts its argument, everything else 0. -/
def sleepSecs : Event → Nat
  | Event.sleep s => s
  | _ => 0

/-- Total seconds slept in a trace. -/
def sleepTotal (tr : List Event) : Nat := (tr.map sleepSecs).sum

/-! ## Concrete test environments -/

/-- Test environment: the second lookup (index 1) returns a record whose
description field is "a cat"; every other lookup misses. -/
def envHit : Env :=
  { uuid := "u1", uploadErr := none,
    lookup := fun i =>
      if i = 1 then LookupOutcome.resp (some [("mood", "ok"), ("description", "a cat")])
      else LookupOutcome.resp none }

/-- Test environment: the first lookup returns a record with no
description field. -/
def envNoDesc : Env :=
  { uuid := "u2", uploadErr := none,
    lookup := fun i =>
      if i = 0 then LookupOutcome.resp (some [("mood", "ok")])
      else LookupOutcome.resp none }

/-- Test environment: every lookup misses. -/
def envMiss : Env :=
  { uuid := "u3", uploadErr := none, lookup := fun _ => LookupOutcome.resp none }

/-- Test environment: the upload raises an exception with message "boom". -/
def envUpErr : Env :=
  { uuid := "u4", uploadErr := some "boom", lookup := fun _ => LookupOutcome.resp none }

/-- Test environment: the third lookup (index 2) raises an exception with
message "io fail"; earlier lookups miss. -/
def envRaise : Env :=
  { uuid := "u5", uploadErr := none,
    lookup := fun i =>
      if i = 2 then LookupOutcome.raise "io fail" else LookupOutcome.resp none }

/-! ## Helper lemmas about the embedded definitions -/

lemma string_append_right_cancel {u1 u2 s : String} (h : u1 ++ s = u2 ++ s) :
    u1 = u2 := by
  apply String.ext
  have hd : u1.data ++ s.data = u2.data ++ s.data := by
    have hc := congrArg String.data h
    simpa [String.data_append] using hc
  exact List.append_cancel_right hd

lemma lookupCount_upload_cons (k : String) (tr : List Event) :
    lookupCount (Event.upload k :: tr) = lookupCount tr := by
  simp [lookupCount, isLookup]

lemma sleepTotal_upload_cons (k : String) (tr : List Event) :
    sleepTotal (Event.upload k :: tr) = sleepTotal tr := by
  simp [sleepTotal, sleepSecs]

lemma sleepCount_upload_cons (k : String) (tr : List Event) :
    sleepCount (Event.upload k :: tr) = sleepCount tr := by
  simp [sleepCount, isSleep]

lemma lookupCount_append (tr1 tr2 : List Event) :
    lookupCount (tr1 ++ tr2) = lookupCount tr1 + lookupCount tr2 := by
  simp [lookupCount, List.filter_append]

lemma lookupCount_single_lookup (k : String) :
    lookupCount [Event.lookup k] = 1 := by
  simp [lookupCount, isLookup]

lemma dictGet_of_fieldVal_some {d : Item} {k v dflt : String}
    (h : fieldVal d k = some v) : dictGet d k dflt = v := by
  unfold fieldVal at h
  unfold dictGet
  cases hf : d.find? (fun q => q.1 == k) with
  | none => rw [hf] at h; simp at h
  | some q => rw [hf] at h; simp at h; exact h

lemma dictGet_of_fieldVal_none {d : Item} {k dflt : String}
    (h : fieldVal d k = none) : dictGet d k dflt = dflt := by
  unfold fieldVal at h
  unfold dictGet
  cases hf : d.find? (fun q => q.1 == k) with
  | none => rfl
  | some q => rw [hf] at h; simp at h

/-- If the first `j` lookups (starting at index `i`) miss and the `j`-th
returns an item, the loop returns that item's description and the trace is
`j` miss blocks followed by the final hit lookup. -/
lemma pollFrom_hit (env : Env) (key : String) (item : Item) (j i rem : Nat)
    (hj : j < rem)
    (hmiss : ∀ k, k < j → env.lookup (i + k) = LookupOutcome.resp none)
    (hhit : env.lookup (i + j) = LookupOutcome.resp (some item)) :
    pollFrom env key i rem =
      (Except.ok (dictGet item "description" "No description"),
       (List.replicate j [Event.lookup key, Event.sleep 2]).flatten ++ [Event.lookup key]) := by
  induction j generalizing i rem with
  | zero =>
    cases rem with
    | zero => omega
    | succ r =>
      simp only [Nat.add_zero] at hhit
      simp [pollFrom, hhit]
  | succ j ih =>
    cases rem with
    | zero => omega
    | succ r =>
      have h0 : env.lookup i = LookupOutcome.resp none := by
        simpa using hmiss 0 (by omega)
      have hrec := ih (i + 1) r (by omega)
        (fun k hk => by
          have harith : i + 1 + k = i + (k + 1) := by omega
          rw [harith]
          exact hmiss (k + 1) (by omega))
        (by
          have harith : i + 1 + j = i + (j + 1) := by omega
          rw [harith]
          exact hhit)
      simp [pollFrom, h0, hrec, List.replicate_succ]

/-- If the first `j` lookups (starting at index `i`) miss and the `j`-th
raises, the loop propagates the exception; the trace is `j` miss blocks
followed by the raising lookup. -/
lemma pollFrom_raise (env : Env) (key : String) (msg : String) (j i rem : Nat)
    (hj : j < rem)
    (hmiss : ∀ k, k < j → env.lookup (i + k) = LookupOutcome.resp none)
    (hraise : env.lookup (i + j) = LookupOutcome.raise msg) :
    pollFrom env key i rem =
      (Except.error msg,
       (List.replicate j [Event.lookup key, Event.sleep 2]).flatten ++ [Event.lookup key]) := by
  induction j generalizing i rem with
  | zero =>
    cases rem with
    | zero => omega
    | succ r =>
      simp only [Nat.add_zero] at hraise
      simp [pollFrom, hraise]
  | succ j ih =>
    cases rem with
    | zero => omega
    | succ r =>
      have h0 : env.lookup i = LookupOutcome.resp none := by
        simpa using hmiss 0 (by omega)
      have hrec := ih (i + 1) r (by omega)
        (fun k hk => by
          have harith : i + 1 + k = i + (k + 1) := by omega
          rw [harith]
          exact hmiss (k + 1) (by omega))
        (by
          have harith : i + 1 + j = i + (j + 1) := by omega
          rw [harith]
          exact hraise)
      simp [pollFrom, h0, hrec, List.replicate_succ]

/-- If all `rem` lookups from index `i` miss, the loop returns the timeout
message and the trace is `rem` full miss blocks (each a lookup then a
2-second sleep). -/
lemma pollFrom_allMiss (env : Env) (key : String) (i rem : Nat)
    (hmiss : ∀ k, k < rem → env.lookup (i + k) = LookupOutcome.resp none) :
    pollFrom env key i rem =
      (Except.ok "Timeout: AI did not respond or Lambda encountered an error.",
       (List.replicate rem [Event.lookup key, Event.sleep 2]).flatten) := by
  induction rem generalizing i with
  | zero => simp [pollFrom]
  | succ r ih =>
    have h0 : env.lookup i = LookupOutcome.resp none := by
      simpa using hmiss 0 (by omega)
    have hrec := ih (i + 1)
      (fun k hk => by
        have harith : i + 1 + k = i + (k + 1) := by omega
        rw [harith]
        exact hmiss (k + 1) (by omega))
    simp [pollFrom, h0, hrec, List.replicate_succ]

/-- Whatever the environment does, the loop performs at most `rem` lookups
and sleeps at most `2 * rem` seconds in total. -/
lemma pollFrom_bounds (env : Env) (key : String) :
    ∀ rem i, lookupCount (pollFrom env key i rem).2 ≤ rem ∧
      sleepTotal (pollFrom env key i rem).2 ≤ 2 * rem := by
  intro rem
  induction rem with
  | zero => intro i; simp [pollFrom, lookupCount, sleepTotal]
  | succ r ih =>
    intro i
    cases h : env.lookup i with
    | raise msg =>
      simp [pollFrom, h, lookupCount, sleepTotal, isLookup, sleepSecs]
    | resp item =>
      cases item with
      | none =>
        have := ih (i + 1)
        simp [pollFrom, h, lookupCount, sleepTotal, isLookup, isSleep, sleepSecs] at this ⊢
        omega
      | some it =>
        simp [pollFrom, h, lookupCount, sleepTotal, isLookup, sleepSecs]

/-- Every event in the loop's trace is a lookup under `key` or a 2-second
sleep. -/
lemma pollFrom_mem (env : Env) (key : String) :
    ∀ rem i e, e ∈ (pollFrom env key i rem).2 →
      e = Event.lookup key ∨ e = Event.sleep 2 := by
  intro rem
  induction rem with
  | zero => intro i e he; simp [pollFrom] at he
  | succ r ih =>
    intro i e he
    cases h : env.lookup i with
    | raise msg =>
      rw [pollFrom, h] at he
      simp at he
      exact Or.inl he
    | resp item =>
      cases item with
      | none =>
        rw [pollFrom, h] at he
        simp at he
        rcases he with h1 | h1 | h1
        · exact Or.inl h1
        · exact Or.inr h1
        · exact ih (i + 1) e h1
      | some it =>
        rw [pollFrom, h] at he
        simp at he
        exact Or.inl he

/-- Every event in a full invocation's trace is the upload, a lookup, or a
2-second sleep, and both stores are addressed under the key
`env.uuid ++ ".jpg"`. -/
lemma analyze_image_mem (env : Env) (p : String) (e : Event)
    (he : e ∈ (analyze_image env (some p)).2) :
    e = Event.upload (env.uuid ++ ".jpg") ∨
    e = Event.lookup (env.uuid ++ ".jpg") ∨
    e = Event.sleep 2 := by
  rw [analyze_image] at he
  cases hup : env.uploadErr with
  | some msg =>
    rw [hup] at he
    simp at he
    exact Or.inl he
  | none =>
    rw [hup] at he
    simp only at he
    cases hp : (pollFrom env (env.uuid ++ ".jpg") 0 maxRetries).1 with
    | ok s =>
      rw [hp] at he
      simp at he
      rcases he with h1 | h1
      · exact Or.inl h1
      · exact Or.inr (pollFrom_mem env (env.uuid ++ ".jpg") maxRetries 0 e h1)
    | error msg =>
      rw [hp] at he
      simp at he
      rcases he with h1 | h1
      · exact Or.inl h1
      · exact Or.inr (pollFrom_mem env (env.uuid ++ ".jpg") maxRetries 0 e h1)

/-- Lookup count of `j` miss blocks is `j`. -/
lemma lookupCount_block (key : String) :
    ∀ j, lookupCount ((List.replicate j [Event.lookup key, Event.sleep 2]).flatten) = j := by
  intro j
  induction j with
  | zero => simp [lookupCount]
  | succ r ih =>
    simp [lookupCount, List.replicate_succ, isLookup, isSleep] at ih ⊢

/-- Sleep count of `j` miss blocks is `j`. -/
lemma sleepCount_block (key : String) :
    ∀ j, sleepCount ((List.replicate j [Event.lookup key, Event.sleep 2]).flatten) = j := by
  intro j
  induction j with
  | zero => simp [sleepCount]
  | succ r ih =>
    simp [sleepCount, List.replicate_succ, isLookup, isSleep] at ih ⊢

section Sanity

example :
    analyze_image { uuid := "u", uploadErr := none, lookup := fun _ => LookupOutcome.resp none }
      none = ("Please upload an image.", []) := by decide

example :
    (analyze_image
      { uuid := "u", uploadErr := none,
        lookup := fun i =>
          if i = 1 then LookupOutcome.resp (some [("description", "a cat")])
          else LookupOutcome.resp none }
      (some "cat.png")).1 = "a cat" := by decide

example :
    (analyze_image
      { uuid := "u", uploadErr := none, lookup := fun _ => LookupOutcome.resp none }
      (some "cat.png")).1 =
      "Timeout: AI did not respond or Lambda encountered an error." := by decide

example :
    lookupCount (analyze_image
      { uuid := "u", uploadErr := none, lookup := fun _ => LookupOutcome.resp none }
      (some "cat.png")).2 = 30 := by decide

end Sanity

/-! ## Claim theorems -/

/-- Claim C1: for a non-None file path, if the lookups before index
`j < 30` all miss and lookup `j` returns a record whose description field
has value `v`, `analyze_image` returns exactly `v` and performs exactly
`j + 1` lookups, i.e. no further lookups after the match. -/
theorem analyze_image_returns_first_match_description (env : Env) (p : String)
    (j : Nat) (item : Item) (v : String)
    (hup : env.uploadErr = none)
    (hj : j < maxRetries)
    (hmiss : ∀ k, k < j → env.lookup k = LookupOutcome.resp none)
    (hhit : env.lookup j = LookupOutcome.resp (some item))
    (hdesc : fieldVal item "description" = some v) :
    (analyze_image env (some p)).1 = v ∧
    lookupCount (analyze_image env (some p)).2 = j + 1 := by
  have hpoll := pollFrom_hit env (env.uuid ++ ".jpg") item j 0 maxRetries hj
    (fun k hk => by simpa using hmiss k hk)
    (by simpa using hhit)
  constructor
  · simp [analyze_image, hup, hpoll]
    exact dictGet_of_fieldVal_some hdesc
  · have h1 : (analyze_image env (some p)).2 =
        Event.upload (env.uuid ++ ".jpg") ::
          ((List.replicate j [Event.lookup (env.uuid ++ ".jpg"), Event.sleep 2]).flatten
            ++ [Event.lookup (env.uuid ++ ".jpg")]) := by
      simp [analyze_image, hup, hpoll]
    rw [h1, lookupCount_upload_cons, lookupCount_append, lookupCount_block,
      lookupCount_single_lookup]

/-- Witness for C1: with `envHit`, the hit is at index 1 and the result is
"a cat" after exactly 2 lookups. -/
theorem analyze_image_returns_first_match_description_witness :
    (analyze_image envHit (some "cat.png")).1 = "a cat" ∧
    lookupCount (analyze_image envHit (some "cat.png")).2 = 1 + 1 :=
  analyze_image_returns_first_match_description envHit "cat.png" 1
    [("mood", "ok"), ("description", "a cat")] "a cat"
    rfl (by decide) (by decide) (by decide) (by decide)

/-- Claim C2: for a non-None file path, if none of the 30 lookups matches
and no exception is raised, `analyze_image` returns the fixed timeout
message and performs no more than 30 lookups. -/
theorem analyze_image_timeout_after_cap (env : Env) (p : String)
    (hup : env.uploadErr = none)
    (hmiss : ∀ k, k < maxRetries → env.lookup k = LookupOutcome.resp none) :
    (analyze_image env (some p)).1 =
      "Timeout: AI did not respond or Lambda encountered an error." ∧
    lookupCount (analyze_image env (some p)).2 ≤ 30 := by
  have hpoll := pollFrom_allMiss env (env.uuid ++ ".jpg") 0 maxRetries
    (fun k hk => by simpa using hmiss k hk)
  constructor
  · simp [analyze_image, hup, hpoll]
  · have h1 : (analyze_image env (some p)).2 =
        Event.upload (env.uuid ++ ".jpg") ::
          (List.replicate maxRetries
            [Event.lookup (env.uuid ++ ".jpg"), Event.sleep 2]).flatten := by
      simp [analyze_image, hup, hpoll]
    rw [h1, lookupCount_upload_cons, lookupCount_block]
    decide

/-- Witness for C2: with `envMiss` every lookup misses, the result is the
timeout message and at most 30 lookups happen. -/
theorem analyze_image_timeout_after_cap_witness :
    (analyze_image envMiss (some "x.png")).1 =
      "Timeout: AI did not respond or Lambda encountered an error." ∧
    lookupCount (analyze_image envMiss (some "x.png")).2 ≤ 30 :=
  analyze_image_timeout_after_cap envMiss "x.png" rfl (by decide)

/-- Claim C3: any exception during the upload, or during a lookup (after
any number of misses), is caught by the single catch-all and turned into
"An error occurred: " followed by the exception message; a raising lookup
is not retried, so exactly `j + 1` lookups happen when lookup `j` raises. -/
theorem analyze_image_exception_to_error_string (env : Env) (p msg : String) :
    (env.uploadErr = some msg →
      analyze_image env (some p) =
        ("An error occurred: " ++ msg, [Event.upload (env.uuid ++ ".jpg")])) ∧
    (env.uploadErr = none →
      ∀ j, j < maxRetries →
        (∀ k, k < j → env.lookup k = LookupOutcome.resp none) →
        env.lookup j = LookupOutcome.raise msg →
        (analyze_image env (some p)).1 = "An error occurred: " ++ msg ∧
        lookupCount (analyze_image env (some p)).2 = j + 1) := by
  constructor
  · intro hup
    simp [analyze_image, hup]
  · intro hup j hj hmiss hraise
    have hpoll := pollFrom_raise env (env.uuid ++ ".jpg") msg j 0 maxRetries hj
      (fun k hk => by simpa using hmiss k hk)
      (by simpa using hraise)
    constructor
    · simp [analyze_image, hup, hpoll]
    · have h1 : (analyze_image env (some p)).2 =
          Event.upload (env.uuid ++ ".jpg") ::
            ((List.replicate j [Event.lookup (env.uuid ++ ".jpg"), Event.sleep 2]).flatten
              ++ [Event.lookup (env.uuid ++ ".jpg")]) := by
        simp [analyze_image, hup, hpoll]
      rw [h1, lookupCount_upload_cons, lookupCount_append, lookupCount_block,
        lookupCount_single_lookup]

/-- Witness for C3: an upload exception ("boom") and a lookup exception at
index 2 ("io fail") both become "An error occurred: " messages, the latter
after exactly 3 lookups. -/
theorem analyze_image_exception_to_error_string_witness :
    analyze_image envUpErr (some "x.png") =
      ("An error occurred: " ++ "boom", [Event.upload (envUpErr.uuid ++ ".jpg")]) ∧
    ((analyze_image envRaise (some "y.png")).1 = "An error occurred: " ++ "io fail" ∧
     lookupCount (analyze_image envRaise (some "y.png")).2 = 2 + 1) :=
  ⟨(analyze_image_exception_to_error_string envUpErr "x.png" "boom").1 rfl,
   (analyze_image_exception_to_error_string envRaise "y.png" "io fail").2 rfl 2
     (by decide) (by decide) (by decide)⟩

/-- Claim C4: with `image_path = None`, `analyze_image` returns the fixed
"please upload" message and its trace is empty: no upload and no lookup. -/
theorem analyze_image_none_no_side_effects (env : Env) :
    analyze_image env none = ("Please upload an image.", []) := rfl

/-- Claim C5: if the first matching lookup returns a record without a
description field, `analyze_image` returns the fixed default
"No description". -/
theorem analyze_image_missing_description_default (env : Env) (p : String)
    (j : Nat) (item : Item)
    (hup : env.uploadErr = none)
    (hj : j < maxRetries)
    (hmiss : ∀ k, k < j → env.lookup k = LookupOutcome.resp none)
    (hhit : env.lookup j = LookupOutcome.resp (some item))
    (hnone : fieldVal item "description" = none) :
    (analyze_image env (some p)).1 = "No description" := by
  have hpoll := pollFrom_hit env (env.uuid ++ ".jpg") item j 0 maxRetries hj
    (fun k hk => by simpa using hmiss k hk)
    (by simpa using hhit)
  simp [analyze_image, hup, hpoll]
  exact dictGet_of_fieldVal_none hnone

/-- Witness for C5: with `envNoDesc` the record found at index 0 has no
description field and the result is "No description". -/
theorem analyze_image_missing_description_default_witness :
    (analyze_image envNoDesc (some "z.png")).1 = "No description" :=
  analyze_image_missing_description_default envNoDesc "z.png" 0 [("mood", "ok")]
    rfl (by decide) (by decide) (by decide) (by decide)

/-- Claim C6: in any invocation, every record-store lookup uses the same
key as the object-store upload of that invocation. -/
theorem analyze_image_upload_lookup_same_key (env : Env)
    (image_path : Option String) (ku kl : String)
    (hu : Event.upload ku ∈ (analyze_image env image_path).2)
    (hl : Event.lookup kl ∈ (analyze_image env image_path).2) :
    kl = ku := by
  cases image_path with
  | none => simp [analyze_image] at hu
  | some p =>
    have m1 := analyze_image_mem env p _ hu
    have m2 := analyze_image_mem env p _ hl
    rcases m1 with h1 | h1 | h1 <;> rcases m2 with h2 | h2 | h2 <;> simp_all

/-- Witness for C6: with `envMiss`, both the upload and a lookup use the
key "u3.jpg". -/
theorem analyze_image_upload_lookup_same_key_witness :
    Event.upload "u3.jpg" ∈ (analyze_image envMiss (some "x.png")).2 ∧
    Event.lookup "u3.jpg" ∈ (analyze_image envMiss (some "x.png")).2 ∧
    ("u3.jpg" : String) = "u3.jpg" :=
  ⟨by decide, by decide,
   analyze_image_upload_lookup_same_key envMiss (some "x.png") "u3.jpg" "u3.jpg"
     (by decide) (by decide)⟩

/-- Claim C7: whatever the environment (any sequence of lookup outcomes,
matching or not), `analyze_image` terminates with at most 30 lookups and
at most 30 × 2 = 60 seconds of total sleep. Termination itself is
reflected by `analyze_image` being a total function. -/
theorem analyze_image_bounded_lookups_and_sleep (env : Env)
    (image_path : Option String) :
    lookupCount (analyze_image env image_path).2 ≤ 30 ∧
    sleepTotal (analyze_image env image_path).2 ≤ 60 := by
  cases image_path with
  | none => simp [analyze_image, lookupCount, sleepTotal]
  | some p =>
    cases hup : env.uploadErr with
    | some msg =>
      simp [analyze_image, hup, lookupCount, sleepTotal, isLookup, sleepSecs]
    | none =>
      have hb := pollFrom_bounds env (env.uuid ++ ".jpg") maxRetries 0
      have h1 : (analyze_image env (some p)).2 =
          Event.upload (env.uuid ++ ".jpg") ::
            (pollFrom env (env.uuid ++ ".jpg") 0 maxRetries).2 := by
        cases hp : (pollFrom env (env.uuid ++ ".jpg") 0 maxRetries).1 with
        | ok s => simp [analyze_image, hup, hp]
        | error msg => simp [analyze_image, hup, hp]
      rw [h1, lookupCount_upload_cons, sleepTotal_upload_cons]
      have hb1 := hb.1
      have hb2 := hb.2
      simp only [maxRetries] at hb1 hb2 ⊢
      omega

/-- Claim C8: two invocations whose environment-supplied UUID draws differ
(which is what `uuid.uuid4()` provides) upload under distinct keys: the
key construction preserves distinctness, so uploads never collide. -/
theorem analyze_image_distinct_uuid_distinct_keys (env1 env2 : Env)
    (p1 p2 k1 k2 : String)
    (huniq : env1.uuid ≠ env2.uuid)
    (h1 : Event.upload k1 ∈ (analyze_image env1 (some p1)).2)
    (h2 : Event.upload k2 ∈ (analyze_image env2 (some p2)).2) :
    k1 ≠ k2 := by
  have m1 := analyze_image_mem env1 p1 _ h1
  have m2 := analyze_image_mem env2 p2 _ h2
  have e1 : k1 = env1.uuid ++ ".jpg" := by
    rcases m1 with h | h | h <;> simp_all
  have e2 : k2 = env2.uuid ++ ".jpg" := by
    rcases m2 with h | h | h <;> simp_all
  rw [e1, e2]
  intro hc
  exact huniq (string_append_right_cancel hc)

/-- Witness for C8: the invocations under `envMiss` (uuid "u3") and
`envUpErr` (uuid "u4") upload under the distinct keys "u3.jpg" and
"u4.jpg". -/
theorem analyze_image_distinct_uuid_distinct_keys_witness :
    ("u3.jpg" : String) ≠ "u4.jpg" :=
  analyze_image_distinct_uuid_distinct_keys envMiss envUpErr "x.png" "y.png"
    "u3.jpg" "u4.jpg" (by decide) (by decide) (by decide)

/-- Claim C9: on the all-miss (timeout) path the trace is the upload
followed by exactly 30 blocks of one lookup then one 2-second sleep: a
sleep follows every miss including the 30th, so there are exactly 30
sleeps and the very last event before returning is a sleep. -/
theorem analyze_image_sleeps_after_every_miss (env : Env) (p : String)
    (hup : env.uploadErr = none)
    (hmiss : ∀ k, k < maxRetries → env.lookup k = LookupOutcome.resp none) :
    (analyze_image env (some p)).2 =
      Event.upload (env.uuid ++ ".jpg") ::
        (List.replicate 30
          [Event.lookup (env.uuid ++ ".jpg"), Event.sleep 2]).flatten ∧
    sleepCount (analyze_image env (some p)).2 = 30 ∧
    (analyze_image env (some p)).2.getLast? = some (Event.sleep 2) := by
  have hpoll := pollFrom_allMiss env (env.uuid ++ ".jpg") 0 maxRetries
    (fun k hk => by simpa using hmiss k hk)
  have hpoll30 : pollFrom env (env.uuid ++ ".jpg") 0 maxRetries =
      (Except.ok "Timeout: AI did not respond or Lambda encountered an error.",
       (List.replicate 30
         [Event.lookup (env.uuid ++ ".jpg"), Event.sleep 2]).flatten) := hpoll
  have h1 : (analyze_image env (some p)).2 =
      Event.upload (env.uuid ++ ".jpg") ::
        (List.replicate 30
          [Event.lookup (env.uuid ++ ".jpg"), Event.sleep 2]).flatten := by
    simp [analyze_image, hup, hpoll30]
  refine ⟨h1, ?_, ?_⟩
  · rw [h1, sleepCount_upload_cons, sleepCount_block]
  · rw [h1]
    rfl

/-- Witness for C9: with `envMiss`, the trace is the upload followed by 30
lookup-sleep blocks, 30 sleeps in total, ending in a sleep. -/
theorem analyze_image_sleeps_after_every_miss_witness :
    (analyze_image envMiss (some "x.png")).2 =
      Event.upload (envMiss.uuid ++ ".jpg") ::
        (List.replicate 30
          [Event.lookup (envMiss.uuid ++ ".jpg"), Event.sleep 2]).flatten ∧
    sleepCount (analyze_image envMiss (some "x.png")).2 = 30 ∧
    (analyze_image envMiss (some "x.png")).2.getLast? = some (Event.sleep 2) :=
  analyze_image_sleeps_after_every_miss envMiss "x.png" rfl (by decide)

/-- Claim C10: for every non-None input path, the first external action is
the upload, and its key is the environment's fresh UUID draw with the
fixed suffix ".jpg", independent of the input path (and hence of the
input file's extension or content). -/
theorem analyze_image_key_is_uuid_jpg (env : Env) (p : String) :
    (analyze_image env (some p)).2.head? = some (Event.upload (env.uuid ++ ".jpg")) := by
  cases hup : env.uploadErr with
  | some msg => simp [analyze_image, hup]
  | none =>
    cases hp : (pollFrom env (env.uuid ++ ".jpg") 0 maxRetries).1 with
    | ok s => simp [analyze_image, hup, hp]
    | error msg => simp [analyze_image, hup, hp]
